import Mathlib

/-!
Shallow embedding of the Marketing AI Platform frontend
(`frontend/src/app/page.tsx`, `frontend/src/components/ContentGallery.tsx`,
the type declarations and the API client), together with spec-modelled
definitions for the backend services whose code is not in the repository
snapshot (only their callers and the database schema are).

State updates done through React `useState` setters are modelled as a pure
state-transition function on a `HomeState` record; the list of progress
events emitted during extraction is returned explicitly.
-/

/-- `ColorPalette` from `types` (part_000). -/
structure ColorPalette where
  primary : String
  secondary : String
  accent : String
  background : String
  text : String
deriving DecidableEq

/-- `Typography` from `types` (part_000). -/
structure Typography where
  headingFont : String
  bodyFont : String
  headingWeight : String
  bodyWeight : String
deriving DecidableEq

/-- `LogoAsset.position` union from `types` (part_000). -/
inductive LogoPosition where
  | topLeft
  | topRight
  | bottomLeft
  | bottomRight
  | center
deriving DecidableEq

/-- `LogoAsset.size` union from `types` (part_000). -/
inductive LogoSize where
  | small
  | medium
  | large
deriving DecidableEq

/-- `LogoAsset` from `types` (part_000); `opacity` is a JS number, embedded as ℚ. -/
structure LogoAsset where
  id : String
  url : String
  position : LogoPosition
  size : LogoSize
  opacity : ℚ
deriving DecidableEq

/-- `BrandDNA` from `types` (part_000). -/
structure BrandDNA where
  id : String
  name : String
  websiteUrl : String
  colors : ColorPalette
  typography : Typography
  logo : Option LogoAsset
  tone : String
  keywords : List String
  industry : String
  extractedAt : String
deriving DecidableEq

/-- `GeneratedContent.type` union from `types` (part_000). -/
inductive ContentType where
  | image
  | video
deriving DecidableEq

/-- `DownloadFormat` from `types` (part_000).  `format` and `quality` are string
unions in the source; they are embedded as `String`, matching their runtime
representation (and the `platform as any` cast in `handleGenerate`). -/
structure DownloadFormat where
  format : String
  quality : String
  url : String
  size : String
deriving DecidableEq

/-- `GeneratedContent` from `types` (part_000).  `platform` is embedded as
`String`: `handleGenerate` receives an arbitrary string and casts it with
`platform as any`. -/
structure GeneratedContent where
  id : String
  type : ContentType
  platform : String
  url : String
  thumbnailUrl : String
  prompt : String
  createdAt : String
  brandId : String
  downloadFormats : List DownloadFormat
deriving DecidableEq

/-- `GenerationStep` union from `types` (part_000). -/
inductive GenerationStep where
  | url
  | extracting
  | confirm
  | logo
  | generate
  | gallery
deriving DecidableEq

/-- `ExtractionStatus.stage` union from `types` (part_000). -/
inductive ExtractionStage where
  | idle
  | crawling
  | analyzing_colors
  | analyzing_fonts
  | analyzing_tone
  | complete
  | error
deriving DecidableEq

/-- `ExtractionStatus` from `types` (part_000); `progress` values in the source
are the naturals 0, 20, 40, 60, 80, 100. -/
structure ExtractionStatus where
  stage : ExtractionStage
  progress : ℕ
  message : String
deriving DecidableEq

/-- The React state of the `Home` component (`page.tsx`, lines 72–82). -/
structure HomeState where
  step : GenerationStep
  extractionStatus : ExtractionStatus
  brand : Option BrandDNA
  generatedContent : List GeneratedContent
  isGenerating : Bool
  isExtracting : Bool
deriving DecidableEq

/-- `MOCK_BRAND` from `page.tsx` lines 23–45; `extractedAt` is
`new Date().toISOString()`, passed in as the load-time timestamp `now`. -/
def MOCK_BRAND (now : String) : BrandDNA :=
  { id := "demo-1"
    name := "TechVenture"
    websiteUrl := "https://techventure.com"
    colors :=
      { primary := "#6366f1"
        secondary := "#ec4899"
        accent := "#06b6d4"
        background := "#0f172a"
        text := "#f8fafc" }
    typography :=
      { headingFont := "Space Grotesk"
        bodyFont := "Inter"
        headingWeight := "700"
        bodyWeight := "400" }
    logo := none
    tone := "Profesional e Innovador"
    keywords := ["tecnología", "innovación", "startup", "digital", "futuro"]
    industry := "Tecnología"
    extractedAt := now }

/-- First element of `MOCK_CONTENT` from `page.tsx` lines 48–58. -/
def mockContent0 (now : String) : GeneratedContent :=
  { id := "1"
    type := ContentType.image
    platform := "instagram_post"
    url := "https://images.unsplash.com/photo-1611162617474-5b21e879e113?w=600"
    thumbnailUrl := "https://images.unsplash.com/photo-1611162617474-5b21e879e113?w=300"
    prompt := "Promoción de lanzamiento con estilo tech futurista"
    createdAt := now
    brandId := "demo-1"
    downloadFormats := [] }

/-- Second element of `MOCK_CONTENT` from `page.tsx` lines 59–69. -/
def mockContent1 (now : String) : GeneratedContent :=
  { id := "2"
    type := ContentType.image
    platform := "facebook"
    url := "https://images.unsplash.com/photo-1460925895917-afdab827c52f?w=600"
    thumbnailUrl := "https://images.unsplash.com/photo-1460925895917-afdab827c52f?w=300"
    prompt := "Banner corporativo con datos y métricas"
    createdAt := now
    brandId := "demo-1"
    downloadFormats := [] }

/-- `MOCK_CONTENT` from `page.tsx` lines 47–70. -/
def MOCK_CONTENT (now : String) : List GeneratedContent :=
  [mockContent0 now, mockContent1 now]

/-- The `stages` array inside `handleExtract` (`page.tsx` lines 89–95). -/
def extractionStages : List ExtractionStatus :=
  [ { stage := ExtractionStage.crawling, progress := 20,
      message := "Escaneando páginas del sitio..." },
    { stage := ExtractionStage.analyzing_colors, progress := 40,
      message := "Extrayendo paleta de colores..." },
    { stage := ExtractionStage.analyzing_fonts, progress := 60,
      message := "Identificando tipografías..." },
    { stage := ExtractionStage.analyzing_tone, progress := 80,
      message := "Analizando tono de comunicación..." },
    { stage := ExtractionStage.complete, progress := 100,
      message := "¡ADN de marca extraído!" } ]

/-- `handleExtract` from `page.tsx` lines 85–106: set `isExtracting`, move to
the `extracting` step, emit each status of `extractionStages` in order, then
install `{ ...MOCK_BRAND, websiteUrl: url }` as the brand and move to
`confirm`.  Returns the final state together with the emitted status events;
`now` is the load-time timestamp baked into `MOCK_BRAND.extractedAt`. -/
def handleExtract (s : HomeState) (url now : String) :
    HomeState × List ExtractionStatus :=
  let s1 := { s with isExtracting := true, step := GenerationStep.extracting }
  let s2 := extractionStages.foldl
    (fun st ev => { st with extractionStatus := ev }) s1
  ({ s2 with
      brand := some { MOCK_BRAND now with websiteUrl := url }
      isExtracting := false
      step := GenerationStep.confirm },
    extractionStages)

/-- `handleLogoUpload` from `page.tsx` lines 112–127: if a brand is present,
store a logo with id `logo-1`, the object URL of the file, the chosen position
and size, and opacity `1`, then move to the `generate` step; otherwise the
state is unchanged.  `fileUrl` stands for `URL.createObjectURL(file)`. -/
def handleLogoUpload (s : HomeState) (fileUrl : String)
    (position : LogoPosition) (size : LogoSize) : HomeState :=
  match s.brand with
  | some b =>
      { s with
          brand := some
            { b with
                logo := some
                  { id := "logo-1", url := fileUrl, position := position,
                    size := size, opacity := 1 } }
          step := GenerationStep.generate }
  | none => s

/-- `handleGenerate` from `page.tsx` lines 129–150: build a new
`GeneratedContent` whose id is `Date.now().toString()` (`nowMs`), whose url
and thumbnail come from `MOCK_CONTENT[0]`, whose `brandId` is `brand?.id || ''`,
prepend it to `generatedContent`, and move to the `gallery` step.
`nowIso` is `new Date().toISOString()`. -/
def handleGenerate (s : HomeState) (platform prompt : String)
    (ty : ContentType) (nowMs : ℕ) (nowIso : String) : HomeState :=
  let newContent : GeneratedContent :=
    { id := toString nowMs
      type := ty
      platform := platform
      url := (mockContent0 nowIso).url
      thumbnailUrl := (mockContent0 nowIso).thumbnailUrl
      prompt := prompt
      createdAt := nowIso
      brandId := match s.brand with | some b => b.id | none => ""
      downloadFormats := [] }
  { s with
      generatedContent := newContent :: s.generatedContent
      isGenerating := false
      step := GenerationStep.gallery }

/-- The gallery items rendered at the `gallery` step (`page.tsx` line 313):
`generatedContent.length > 0 ? generatedContent : MOCK_CONTENT`. -/
def galleryItems (generated : List GeneratedContent) (now : String) :
    List GeneratedContent :=
  if generated.length > 0 then generated else MOCK_CONTENT now

/-- The ids of the `steps` array inside `renderNavigation`
(`page.tsx` lines 159–165): url, confirm, logo, generate, gallery. -/
def navStepIds : List String :=
  ["url", "confirm", "logo", "generate", "gallery"]

/-- The id string of a `GenerationStep` value. -/
def stepId : GenerationStep → String
  | GenerationStep.url => "url"
  | GenerationStep.extracting => "extracting"
  | GenerationStep.confirm => "confirm"
  | GenerationStep.logo => "logo"
  | GenerationStep.generate => "generate"
  | GenerationStep.gallery => "gallery"

/-- `currentIndex = steps.findIndex(s => s.id === step)` (`page.tsx` line 167);
JS `findIndex` yields `-1` when the step (e.g. `extracting`) is not listed. -/
def navCurrentIndex (step : GenerationStep) : ℤ :=
  match navStepIds.findIdx? (fun i => i == stepId step) with
  | some i => (i : ℤ)
  | none => -1

/-- `isClickable = isCompleted || s.id === 'gallery'` with
`isCompleted = index < currentIndex` (`page.tsx` lines 187–188), for the
button at position `i` of the steps array. -/
def navClickable (current : GenerationStep) (i : ℕ) : Bool :=
  ((i : ℤ) < navCurrentIndex current) || ((navStepIds.getD i "") == "gallery")

/-- Whitespace predicate used by JS `String.prototype.trim` (restricted to its
ASCII fragment, which is all the source can produce from a textarea). -/
def jsWhitespace (c : Char) : Bool :=
  c = ' ' || c = '\t' || c = '\n' || c = '\r' || c = '\x0b' || c = '\x0c'

/-- JS `s.trim()` on the character list of a string: drop whitespace from both
ends. -/
def jsTrim (s : List Char) : List Char :=
  ((s.dropWhile jsWhitespace).reverse.dropWhile jsWhitespace).reverse

/-- The guard of `GenerationForm.handleSubmit` (`ContentGallery.tsx` lines
259–264): `onGenerate` is invoked iff `prompt.trim()` is truthy, i.e. the
trimmed prompt is non-empty.  The submit button's `disabled` flag
(line 393, `!prompt.trim() || isGenerating`) applies the same condition. -/
def submitInvokesGenerate (prompt : String) : Bool :=
  !(jsTrim prompt.data).isEmpty

/-- `imageFormats` from `DownloadModal` (`ContentGallery.tsx` lines 140–146). -/
def imageFormats : List DownloadFormat :=
  [ { format := "png", quality := "hd", url := "", size := "~2.5 MB" },
    { format := "png", quality := "4k", url := "", size := "~8 MB" },
    { format := "jpg", quality := "hd", url := "", size := "~800 KB" },
    { format := "webp", quality := "hd", url := "", size := "~400 KB" },
    { format := "pdf", quality := "hd", url := "", size := "~3 MB" } ]

/-- `videoFormats` from `DownloadModal` (`ContentGallery.tsx` lines 148–153). -/
def videoFormats : List DownloadFormat :=
  [ { format := "mp4", quality := "hd", url := "", size := "~15 MB" },
    { format := "mp4", quality := "4k", url := "", size := "~50 MB" },
    { format := "mov", quality := "hd", url := "", size := "~25 MB" },
    { format := "webm", quality := "hd", url := "", size := "~10 MB" } ]

/-- `formats = isVideo ? videoFormats : imageFormats`
(`ContentGallery.tsx` lines 138, 155): the download options the modal offers
for an item. -/
def formatsFor (item : GeneratedContent) : List DownloadFormat :=
  match item.type with
  | ContentType.video => videoFormats
  | ContentType.image => imageFormats

/-- Error kinds of the backend logo service, from the spec's taxonomy. -/
inductive LogoError where
  | InvalidOpacity
deriving DecidableEq

/-- Modelled from the spec: the backend logo-creation service (the
`/api/brand-dna/logo` endpoint behind `uploadLogo` in the API client); its
implementation is not in the repository snapshot.  Per §3, "opacity outside
[0,1] is rejected at creation, not clamped silently": an out-of-range opacity
yields an error, an in-range opacity is stored unchanged. -/
def createLogoSpec (id url : String) (position : LogoPosition)
    (size : LogoSize) (opacity : ℚ) : Except LogoError LogoAsset :=
  if opacity < 0 ∨ 1 < opacity then
    Except.error LogoError.InvalidOpacity
  else
    Except.ok { id := id, url := url, position := position, size := size,
                opacity := opacity }

/-- Error kind of the Format Exporter, from the spec's taxonomy (§4.6, §7). -/
inductive ExportError where
  | UnsupportedFormat
deriving DecidableEq

/-- Modelled from the spec (§4.6): allowed formats per content type —
images {png, jpg, webp, pdf}, videos {mp4, mov, webm}. -/
def allowedFormats (ty : ContentType) : List String :=
  match ty with
  | ContentType.image => ["png", "jpg", "webp", "pdf"]
  | ContentType.video => ["mp4", "mov", "webm"]

/-- Modelled from the spec (§4.6): allowed qualities {hd, 4k}. -/
def allowedQualities : List String := ["hd", "4k"]

/-- Modelled from the spec: the Format Exporter's cache, keyed by
(contentId, format, quality), plus a transcode call counter (the spec makes
the counter observable in tests). -/
structure ExporterState where
  cache : List ((String × String × String) × String)
  transcodeCount : ℕ
deriving DecidableEq

/-- Modelled from the spec (§4.5, §4.6): the transcode step, a deterministic
function of the asset bytes and the requested variant; its output stands for
the bytes of the `DownloadVariant`. -/
def transcodeBytes (assetUrl fmt quality : String) : String :=
  assetUrl ++ "#" ++ fmt ++ "#" ++ quality

/-- Modelled from the spec: the Format Exporter backend behind `getDownloadUrl`
in the API client (part_002 lines 64–74); its implementation is not in the
repository snapshot.  `export(ContentAsset, format, quality) ->
DownloadVariant | fails(UnsupportedFormat)`: unsupported combinations fail
validation before any transcode work starts; the first request for a key
transcodes and caches, subsequent requests return the cached variant. -/
def exportVariant (st : ExporterState) (asset : GeneratedContent)
    (fmt quality : String) : Except ExportError (String × ExporterState) :=
  if (allowedFormats asset.type).contains fmt
      && allowedQualities.contains quality then
    match st.cache.lookup (asset.id, fmt, quality) with
    | some bytes => Except.ok (bytes, st)
    | none =>
        let bytes := transcodeBytes asset.url fmt quality
        Except.ok (bytes,
          { cache := ((asset.id, fmt, quality), bytes) :: st.cache,
            transcodeCount := st.transcodeCount + 1 })
  else
    Except.error ExportError.UnsupportedFormat

/-- A concrete video asset, used by closed witness statements. -/
def demoVideoAsset : GeneratedContent :=
  { id := "v-1"
    type := ContentType.video
    platform := "instagram_story"
    url := "https://example.com/video.bin"
    thumbnailUrl := "https://example.com/video-thumb.bin"
    prompt := "Clip promocional"
    createdAt := "2026-10-11"
    brandId := "demo-1"
    downloadFormats := [] }

/-- A concrete pre-generation state whose brand has no logo, used by closed
statements: the `generate` step is reachable with `brand.logo = null` via the
always-clickable `gallery` button followed by the completed-step buttons. -/
def preGenState : HomeState :=
  { step := GenerationStep.generate
    extractionStatus := { stage := ExtractionStage.idle, progress := 0, message := "" }
    brand := some (MOCK_BRAND "2026-10-11")
    generatedContent := []
    isGenerating := false
    isExtracting := false }

/-- The download-variant bytes of `demoVideoAsset` as mp4/hd, used by closed
witness statements. -/
def demoBytes : String := transcodeBytes demoVideoAsset.url "mp4" "hd"

/-- The exporter cache after one mp4/hd export of `demoVideoAsset` from the
empty cache, used by closed witness statements. -/
def demoCachedState : ExporterState :=
  { cache := [((demoVideoAsset.id, "mp4", "hd"), demoBytes)],
    transcodeCount := 1 }

/-- The logo record built by `handleLogoUpload` (`page.tsx` lines 117–123). -/
def uploadedLogo (fileUrl : String) (position : LogoPosition)
    (size : LogoSize) : LogoAsset :=
  { id := "logo-1", url := fileUrl, position := position, size := size,
    opacity := 1 }

/-! ## Theorems -/

/-- Helper: a character that is not whitespace survives trimming, so the
trimmed list is non-empty. -/
theorem jsTrim_ne_nil (s : List Char) (c : Char) (hc : c ∈ s)
    (hw : jsWhitespace c = false) : jsTrim s ≠ [] := by
  intro h
  unfold jsTrim at h
  rw [List.reverse_eq_nil_iff, List.dropWhile_eq_nil_iff] at h
  have hcd : c ∈ s.dropWhile jsWhitespace := by
    have hsplit := List.takeWhile_append_dropWhile (p := jsWhitespace) (l := s)
    rw [← hsplit] at hc
    rcases List.mem_append.mp hc with h1 | h2
    · have := List.mem_takeWhile_imp h1
      rw [hw] at this
      exact absurd this (by simp)
    · exact h2
  have hfalse := h c (List.mem_reverse.mpr hcd)
  rw [hw] at hfalse
  exact absurd hfalse (by simp)

/-- C2: for every extraction run the emitted progress events follow the stage
order crawling, analyzing_colors, analyzing_fonts, analyzing_tone, complete
with percents exactly 20, 40, 60, 80, 100; the percent sequence is
monotonically non-decreasing and the final event is `complete` at exactly
100. -/
theorem extraction_progress_checkpoints (s : HomeState) (url now : String) :
    ((handleExtract s url now).2.map ExtractionStatus.stage =
      [ExtractionStage.crawling, ExtractionStage.analyzing_colors,
       ExtractionStage.analyzing_fonts, ExtractionStage.analyzing_tone,
       ExtractionStage.complete]) ∧
    ((handleExtract s url now).2.map ExtractionStatus.progress =
      [20, 40, 60, 80, 100]) ∧
    List.Chain' (· ≤ ·)
      ((handleExtract s url now).2.map ExtractionStatus.progress) ∧
    ((handleExtract s url now).2.getLast?.map
        (fun ev => (ev.stage, ev.progress)) =
      some (ExtractionStage.complete, 100)) := by
  refine ⟨rfl, rfl, ?_, rfl⟩
  show List.Chain' (· ≤ ·) [20, 40, 60, 80, 100]
  norm_num [List.chain'_cons]

/-- C9: extraction installs the fixed mock brand (name TechVenture, the five
fixed colors, no logo) with only `websiteUrl` replaced by the submitted URL;
the crawled site's content does not enter the result (`handleExtract` takes
no artifact of the site at all). -/
theorem extract_installs_mock_brand (s : HomeState) (url now : String) :
    (handleExtract s url now).1.brand =
      some { MOCK_BRAND now with websiteUrl := url } ∧
    (MOCK_BRAND now).name = "TechVenture" ∧
    (MOCK_BRAND now).colors =
      { primary := "#6366f1", secondary := "#ec4899", accent := "#06b6d4",
        background := "#0f172a", text := "#f8fafc" } ∧
    (MOCK_BRAND now).logo = none ∧
    ({ MOCK_BRAND now with websiteUrl := url } : BrandDNA).websiteUrl = url :=
  ⟨rfl, rfl, rfl, rfl, rfl⟩

/-- C10: with no generated content the gallery renders the two fixed mock
items; as soon as the generated list is non-empty only the generated assets
are shown. -/
theorem gallery_falls_back_to_mock (now : String) :
    galleryItems [] now = MOCK_CONTENT now ∧
    (MOCK_CONTENT now).length = 2 ∧
    (∀ gen : List GeneratedContent, gen ≠ [] → galleryItems gen now = gen) := by
  refine ⟨rfl, rfl, ?_⟩
  intro gen hg
  simp [galleryItems, List.length_pos.mpr hg]

/-- Witness for C10 at a concrete non-empty list. -/
theorem gallery_falls_back_to_mock_witness :
    galleryItems [demoVideoAsset] "2026-10-11" = [demoVideoAsset] :=
  (gallery_falls_back_to_mock "2026-10-11").2.2 [demoVideoAsset] (by simp)

/-- C8: a step button at position `i` is clickable iff `i` precedes the
current step's index (the step is completed) or the button is the `gallery`
one (position 4); in particular gallery is clickable from every current
step. -/
theorem nav_clickable_iff (current : GenerationStep) (i : ℕ)
    (h : i < navStepIds.length) :
    (navClickable current i = true ↔
      ((i : ℤ) < navCurrentIndex current ∨ i = 4)) ∧
    navClickable current 4 = true := by
  have h5 : i < 5 := by simpa [navStepIds] using h
  cases current <;> interval_cases i <;> decide

/-- Witness for C8: from the very first step the gallery button is already
clickable. -/
theorem nav_clickable_iff_witness :
    navClickable GenerationStep.url 4 = true :=
  (nav_clickable_iff GenerationStep.url 4 (by decide)).2

/-- C7: every generate call prepends exactly one new asset whose id is the
millisecond timestamp, and leaves every previously generated asset unchanged
(the remainder of the list is exactly the old list). -/
theorem generate_appends_fresh_asset (s : HomeState) (platform prompt : String)
    (ty : ContentType) (nowMs : ℕ) (nowIso : String)
    (h : toString nowMs ∉ s.generatedContent.map GeneratedContent.id) :
    ∃ a : GeneratedContent,
      (handleGenerate s platform prompt ty nowMs nowIso).generatedContent =
        a :: s.generatedContent ∧
      a.id = toString nowMs ∧
      a.id ∉ s.generatedContent.map GeneratedContent.id ∧
      (handleGenerate s platform prompt ty nowMs nowIso).generatedContent.length =
        s.generatedContent.length + 1 :=
  ⟨_, rfl, rfl, h, rfl⟩

/-- Witness for C7 at a concrete state with no prior content. -/
theorem generate_appends_fresh_asset_witness :
    ∃ a : GeneratedContent,
      (handleGenerate preGenState "instagram_post" "Promo" ContentType.image
        1760000000000 "2026-10-11").generatedContent =
        a :: preGenState.generatedContent ∧
      a.id = toString 1760000000000 ∧
      a.id ∉ preGenState.generatedContent.map GeneratedContent.id ∧
      (handleGenerate preGenState "instagram_post" "Promo" ContentType.image
        1760000000000 "2026-10-11").generatedContent.length =
        preGenState.generatedContent.length + 1 :=
  generate_appends_fresh_asset preGenState "instagram_post" "Promo"
    ContentType.image 1760000000000 "2026-10-11" (by simp [preGenState])

/-- C1 counterexample: at a concrete state whose brand has no logo, the
generate handler still appends one asset to the generated-content collection
(origin state has zero assets, the result has one); no `MissingLogo` failure
path exists in `handleGenerate`. -/
theorem generate_without_logo_appends :
    ((MOCK_BRAND "2026-10-11").logo = none) ∧
    (preGenState.brand = some (MOCK_BRAND "2026-10-11")) ∧
    (preGenState.generatedContent.length = 0) ∧
    ((handleGenerate preGenState "instagram_post" "Promo" ContentType.image
        1760000000000 "2026-10-11").generatedContent.length = 1) :=
  ⟨rfl, rfl, rfl, rfl⟩

/-- C1 (amended): when the brand has no logo, `handleGenerate` does not fail;
it appends exactly one new asset and keeps the previous assets unchanged —
the `MissingLogo` guard of the spec is not implemented in the source's
generation path. -/
theorem generate_ignores_missing_logo (s : HomeState) (b : BrandDNA)
    (platform prompt : String) (ty : ContentType) (nowMs : ℕ) (nowIso : String)
    (hb : s.brand = some b) (hl : b.logo = none) :
    (handleGenerate s platform prompt ty nowMs nowIso).generatedContent.length =
      s.generatedContent.length + 1 ∧
    (handleGenerate s platform prompt ty nowMs nowIso).generatedContent.tail =
      s.generatedContent :=
  ⟨rfl, rfl⟩

/-- Witness for C1 (amended) at the concrete no-logo state. -/
theorem generate_ignores_missing_logo_witness :
    (handleGenerate preGenState "instagram_post" "Promo" ContentType.image 1
        "2026-10-11").generatedContent.length =
      preGenState.generatedContent.length + 1 :=
  (generate_ignores_missing_logo preGenState (MOCK_BRAND "2026-10-11")
    "instagram_post" "Promo" ContentType.image 1 "2026-10-11" rfl rfl).1

set_option maxRecDepth 4000 in
/-- C3 counterexample: a prompt of 501 identical non-whitespace characters is
longer than 500 characters, yet the submit guard still invokes generation —
the 500-character bound is displayed but not enforced. -/
theorem overlong_prompt_invokes_generation :
    ((String.mk (List.replicate 501 'a')).length = 501) ∧
    (submitInvokesGenerate (String.mk (List.replicate 501 'a')) = true) := by
  constructor
  · simp [String.length]
  · have h := jsTrim_ne_nil (String.mk (List.replicate 501 'a')).data 'a'
      (by simp [List.mem_replicate]) (by decide)
    simpa [submitInvokesGenerate, List.isEmpty_iff] using h

/-- C3 (amended): the submit guard only checks that the trimmed prompt is
non-empty: a prompt that is all whitespace (in particular the empty prompt)
never invokes generation, while any prompt containing one non-whitespace
character — of any length, including above 500 — always does; no
`ValidationError` and no upper length bound exist in the source. -/
theorem submit_trim_guard (p : String) :
    ((∀ c ∈ p.data, jsWhitespace c = true) →
      submitInvokesGenerate p = false) ∧
    (∀ c ∈ p.data, jsWhitespace c = false →
      submitInvokesGenerate p = true) := by
  constructor
  · intro hws
    have h1 : p.data.dropWhile jsWhitespace = [] :=
      List.dropWhile_eq_nil_iff.mpr (fun x hx => by simp [hws x hx])
    simp [submitInvokesGenerate, jsTrim, h1]
  · intro c hc hw
    have h := jsTrim_ne_nil p.data c hc hw
    simpa [submitInvokesGenerate, List.isEmpty_iff] using h

/-- Witness for C3 (amended): a whitespace-only prompt is dropped, a
one-letter prompt goes through. -/
theorem submit_trim_guard_witness :
    submitInvokesGenerate "   " = false ∧
    submitInvokesGenerate "Promo" = true :=
  ⟨(submit_trim_guard "   ").1 (by decide),
   (submit_trim_guard "Promo").2 'P' (by decide) (by decide)⟩

/-- C4: exporting a video asset as pdf fails with `UnsupportedFormat` for
every quality and leaves the cache untouched (no transcode starts), and the
download modal never offers pdf among the formats of a video item. -/
theorem pdf_export_unsupported_for_video :
    (∀ (st : ExporterState) (asset : GeneratedContent) (quality : String),
        asset.type = ContentType.video →
        exportVariant st asset "pdf" quality =
          Except.error ExportError.UnsupportedFormat) ∧
    (∀ item : GeneratedContent, item.type = ContentType.video →
        ∀ f ∈ formatsFor item, f.format ≠ "pdf") := by
  constructor
  · intro st asset quality h
    have hc : (allowedFormats asset.type).contains "pdf" = false := by
      rw [h]; decide
    have hcond : ¬ (((allowedFormats asset.type).contains "pdf"
        && allowedQualities.contains quality) = true) := by
      rw [hc, Bool.false_and]; simp
    unfold exportVariant
    rw [if_neg hcond]
  · intro item h f hf
    simp only [formatsFor, h] at hf
    fin_cases hf <;> decide

/-- Witness for C4 at a concrete video asset, empty cache and quality hd. -/
theorem pdf_export_unsupported_for_video_witness :
    exportVariant { cache := [], transcodeCount := 0 } demoVideoAsset "pdf"
        "hd" = Except.error ExportError.UnsupportedFormat :=
  pdf_export_unsupported_for_video.1 { cache := [], transcodeCount := 0 }
    demoVideoAsset "hd" rfl

/-- C5: if an export request succeeds with some variant bytes and resulting
exporter state, repeating the request with the same (contentId, format,
quality) key returns byte-identical content and the identical exporter state —
in particular the transcode counter does not move, so the second request
performs no transcode. -/
theorem export_second_request_cached (st : ExporterState)
    (asset : GeneratedContent) (fmt quality : String) (bytes : String)
    (st1 : ExporterState)
    (h : exportVariant st asset fmt quality = Except.ok (bytes, st1)) :
    exportVariant st1 asset fmt quality = Except.ok (bytes, st1) := by
  unfold exportVariant at h ⊢
  by_cases hok : ((allowedFormats asset.type).contains fmt
      && allowedQualities.contains quality) = true
  · rw [if_pos hok] at h ⊢
    cases hcache : st.cache.lookup (asset.id, fmt, quality) with
    | some b =>
        rw [hcache] at h
        simp only [Except.ok.injEq, Prod.mk.injEq] at h
        obtain ⟨hb, hst⟩ := h
        subst hb
        subst hst
        rw [hcache]
    | none =>
        rw [hcache] at h
        simp only [Except.ok.injEq, Prod.mk.injEq] at h
        obtain ⟨hb, hst⟩ := h
        subst hb
        subst hst
        simp [List.lookup]
  · rw [if_neg hok] at h
    exact absurd h (by simp)

/-- Witness for C5: the second mp4/hd export of the demo video returns the
cached bytes and leaves the exporter state (hence the transcode counter)
unchanged. -/
theorem export_second_request_cached_witness :
    exportVariant demoCachedState demoVideoAsset "mp4" "hd" =
      Except.ok (demoBytes, demoCachedState) :=
  export_second_request_cached { cache := [], transcodeCount := 0 }
    demoVideoAsset "mp4" "hd" demoBytes demoCachedState rfl

/-- C6: every logo stored by the source's upload handler has opacity exactly 1,
hence within [0,1]; and the spec-modelled backend creation rejects an opacity
outside [0,1] with an error while storing an in-range opacity unchanged
(no silent clamping). -/
theorem logo_opacity_in_unit_interval :
    (∀ (s : HomeState) (fileUrl : String) (p : LogoPosition) (sz : LogoSize)
        (b0 : BrandDNA), s.brand = some b0 →
        (handleLogoUpload s fileUrl p sz).brand =
          some { b0 with logo := some (uploadedLogo fileUrl p sz) } ∧
        (uploadedLogo fileUrl p sz).opacity = 1 ∧
        (0 : ℚ) ≤ 1 ∧ (1 : ℚ) ≤ 1) ∧
    (∀ (i u : String) (p : LogoPosition) (sz : LogoSize) (o : ℚ),
        ((o < 0 ∨ 1 < o) →
          createLogoSpec i u p sz o = Except.error LogoError.InvalidOpacity) ∧
        (0 ≤ o → o ≤ 1 →
          createLogoSpec i u p sz o =
            Except.ok { id := i, url := u, position := p, size := sz,
                        opacity := o })) := by
  constructor
  · intro s fileUrl p sz b0 hb
    refine ⟨?_, rfl, by norm_num, le_refl 1⟩
    simp [handleLogoUpload, hb, uploadedLogo]
  · intro i u p sz o
    constructor
    · intro ho
      simp [createLogoSpec, ho]
    · intro h0 h1
      have hno : ¬ (o < 0 ∨ 1 < o) := by push_neg; exact ⟨h0, h1⟩
      simp [createLogoSpec, hno]

/-- Witness for C6: the upload handler stores opacity 1 on the demo brand, and
the modelled creation rejects opacity 3. -/
theorem logo_opacity_in_unit_interval_witness :
    (handleLogoUpload preGenState "blob:logo" LogoPosition.bottomRight
        LogoSize.medium).brand =
      some { MOCK_BRAND "2026-10-11" with
              logo := some (uploadedLogo "blob:logo" LogoPosition.bottomRight
                LogoSize.medium) } ∧
    createLogoSpec "l1" "blob:logo" LogoPosition.center LogoSize.small
        (3 : ℚ) = Except.error LogoError.InvalidOpacity :=
  ⟨(logo_opacity_in_unit_interval.1 preGenState "blob:logo"
      LogoPosition.bottomRight LogoSize.medium (MOCK_BRAND "2026-10-11")
      rfl).1,
   (logo_opacity_in_unit_interval.2 "l1" "blob:logo" LogoPosition.center
      LogoSize.small 3).1 (Or.inr (by norm_num))⟩
